import Mathlib

set_option maxRecDepth 100000

/-!
Verification of the pdf_to_text repository (app.py, translate.py,
processor/image.py) against its natural-language specification.

The Python code is shallowly embedded as pure Lean functions.  External
collaborators (the file system, the OCR engine, the Groq completion
backend) are modelled as oracle fields of an `Env` record; every call the
engine makes to the completion backend is recorded in an explicit trace
(a list of the ordered message sequences sent), so that claims about
which requests are issued, in which order and with which contents, can be
stated and proved.  File writes are modelled as the list of
(path, contents) pairs the run produces.
-/

/-- A message content: either plain text or an inline image attachment
carried as a data URL (translated from the dictionaries built by
`prepare_messages` in app.py and translate.py). -/
inductive Content where
  | text (s : String) : Content
  | imageUrl (url : String) : Content
deriving DecidableEq

/-- A chat message with a role, as built by `prepare_messages`. -/
structure Message where
  role : String
  content : Content
deriving DecidableEq

/-- The ordered log of completion requests (each request is the ordered
message sequence given to the backend). -/
abbrev Trace := List (List Message)

/-- Oracles for the external collaborators of the engine: raw file bytes
(read by `encode_image_to_base64`), the OCR engine (`pytesseract`), the
Groq chat-completion backend, text-file reads (translate.py) and the
`os.path.isdir` test (translate.py).  `Except.error` models a raised
exception. -/
structure Env where
  fs : String → List Nat
  ocr : String → Except String String
  complete : List Message → Except String String
  readFile : String → Except String String
  isDir : String → Bool

/-- Standard base64 alphabet (used by Python's `base64.b64encode`). -/
def base64_alphabet : List Char :=
  "ABCDEFGHIJKLMNOPQRSTUVWXYZabcdefghijklmnopqrstuvwxyz0123456789+/".data

/-- Character of the base64 alphabet at index `n`. -/
def base64_char (n : Nat) : Char :=
  base64_alphabet.getD n '?'

/-- Standard base64 of a byte list, with `=` padding, as produced by
Python's `base64.b64encode`. -/
def base64_encode : List Nat → List Char
  | [] => []
  | [a] => [base64_char (a / 4), base64_char (a % 4 * 16), '=', '=']
  | [a, b] => [base64_char (a / 4), base64_char (a % 4 * 16 + b / 16),
               base64_char (b % 16 * 4), '=']
  | a :: b :: c :: rest =>
      [base64_char (a / 4), base64_char (a % 4 * 16 + b / 16),
       base64_char (b % 16 * 4 + c / 64), base64_char (c % 64)]
      ++ base64_encode rest

/-- processor/image.py `encode_image_to_base64`: read the raw bytes of
the file and base64-encode them (the bytes come from the `fs` oracle). -/
def encode_image_to_base64 (fs : String → List Nat) (image_path : String) : String :=
  String.mk (base64_encode (fs image_path))

/-- Python `str.split(sep)` for a one-character separator, on char lists. -/
def split_on_char (sep : Char) : List Char → List (List Char)
  | [] => [[]]
  | c :: rest =>
    let r := split_on_char sep rest
    if c = sep then [] :: r
    else
      match r with
      | [] => [[c]]
      | h :: t => (c :: h) :: t

/-- Python `str.split(sep)` for a one-character separator. -/
def py_split (sep : Char) (s : String) : List String :=
  (split_on_char sep s.data).map String.mk

/-- Fuel-indexed worker for `py_replace`; the fuel is the length of the
scanned list, which bounds the number of steps. -/
def replace_go (pat rep : List Char) : Nat → List Char → List Char
  | _, [] => []
  | 0, l => l
  | Nat.succ n, c :: rest =>
    if pat.isPrefixOf (c :: rest) then
      rep ++ replace_go pat rep n ((c :: rest).drop pat.length)
    else
      c :: replace_go pat rep n rest

/-- Python `str.replace(pat, rep)` for a non-empty pattern. -/
def py_replace (s pat rep : String) : String :=
  String.mk (replace_go pat.data rep.data s.data.length s.data)

namespace App

/-- app.py `prepare_messages`: instruction message, then content message,
then — when the image path is truthy (present and non-empty, Python
`if image_path:`) — one extra user message carrying the inline image
attachment as a jpeg data URL of the base64-encoded file bytes. -/
def prepare_messages (fs : String → List Nat) (prompt content : String)
    (image_path : Option String) : List Message :=
  let messages : List Message :=
    [⟨"user", Content.text prompt⟩, ⟨"user", Content.text content⟩]
  match image_path with
  | none => messages
  | some p =>
    if p = "" then messages
    else
      messages ++
        [⟨"user", Content.imageUrl ("data:image/jpeg;base64," ++ encode_image_to_base64 fs p)⟩]

/-- app.py `groq_completion`: one call to the completion backend; the
request is appended to the trace and the oracle's answer returned. -/
def groq_completion (env : Env) (tr : Trace) (messages : List Message) :
    Trace × Except String String :=
  (tr ++ [messages], env.complete messages)

/-- Instruction of app.py `initial_markdown_conversion`. -/
def initial_prompt : String :=
  "Convert the following text to markdown format, preserving structure and formatting:"

/-- app.py `initial_markdown_conversion`. -/
def initial_markdown_conversion (env : Env) (tr : Trace) (text : String)
    (image_path : Option String) : Trace × Except String String :=
  groq_completion env tr (prepare_messages env.fs initial_prompt text image_path)

/-- The feedback-generation f-string prompt of app.py `feedback_loop`. -/
def feedback_prompt (original_text markdown : String) : String :=
  "\n    Compare the original text with the markdown conversion.\n    Identify any discrepancies in structure, formatting, or content.\n    Provide specific feedback on how to improve the markdown.\n    Original text:\n    "
  ++ original_text
  ++ "\n\n    Current markdown:\n    " ++ markdown ++ "\n    "

/-- The feedback-application f-string prompt of app.py `feedback_loop`. -/
def improve_prompt (feedback markdown : String) : String :=
  "\n    Using the following feedback, improve the markdown conversion:\n    "
  ++ feedback
  ++ "\n\n    Current markdown:\n    " ++ markdown ++ "\n    "

/-- app.py `feedback_loop`: generate feedback (no image on that request),
then apply it (the image is attached only when `image_path` is given). -/
def feedback_loop (env : Env) (tr : Trace) (original_text markdown : String)
    (image_path : Option String) : Trace × Except String String :=
  match groq_completion env tr
      (prepare_messages env.fs (feedback_prompt original_text markdown)
        "Provide feedback for improvement" none) with
  | (tr1, Except.error e) => (tr1, Except.error e)
  | (tr1, Except.ok feedback) =>
      groq_completion env tr1
        (prepare_messages env.fs (improve_prompt feedback markdown)
          "Improve the markdown based on feedback" image_path)

/-- The `for i in range(k)` loop of app.py `process_page` step 3: `k`
successive `feedback_loop` passes, each called without an image path
(`process_page` passes only the two text arguments); a raised error
aborts the loop.  `process_page` instantiates `k` with the hardcoded
`range(1)`. -/
def feedback_iterations (env : Env) (k : Nat) (tr : Trace)
    (original_text markdown : String) : Trace × Except String String :=
  match k with
  | 0 => (tr, Except.ok markdown)
  | Nat.succ k' =>
    match feedback_loop env tr original_text markdown none with
    | (tr1, Except.error e) => (tr1, Except.error e)
    | (tr1, Except.ok improved) => feedback_iterations env k' tr1 original_text improved

/-- The f-string prompt of app.py `meta_reasoning`, including the
`"\n\n".join(...)` of the enumerated versions. -/
def meta_prompt (original_text : String) (markdown_versions : List String) : String :=
  let versions_text := String.intercalate "\n\n"
    ((List.enum markdown_versions).map
      (fun iv => "Version " ++ toString (iv.1 + 1) ++ ":\n" ++ iv.2))
  "\n    Compare the following markdown versions with the original text:\n\n    Original text:\n    "
  ++ original_text
  ++ "\n\n    Markdown versions:\n    " ++ versions_text
  ++ "\n\n    Analyze each version for accuracy, completeness, and proper markdown formatting.\n    Select the best version or combine the best elements from multiple versions.\n    Provide your reasoning and the final, optimized markdown.\n    "

/-- The request built by app.py `meta_reasoning` (the single completion
call that function makes). -/
def meta_reasoning_messages (env : Env) (original_text : String)
    (markdown_versions : List String) (image_path : Option String) : List Message :=
  prepare_messages env.fs (meta_prompt original_text markdown_versions)
    "Perform meta-reasoning and provide optimized markdown" image_path

/-- app.py `meta_reasoning`. -/
def meta_reasoning (env : Env) (tr : Trace) (original_text : String)
    (markdown_versions : List String) (image_path : Option String) :
    Trace × Except String String :=
  groq_completion env tr (meta_reasoning_messages env original_text markdown_versions image_path)

/-- The triple-quoted prompt of app.py `ai_read_image`. -/
def ai_read_prompt : String :=
  "\n    Convert the following page to markdown.\n    Return only the markdown with no explanation text.\n    Do not exclude any content from the page.\n    "

/-- The request built by app.py `ai_read_image` (the single completion
call that function makes). -/
def ai_read_image_messages (env : Env) (image_path : String) : List Message :=
  prepare_messages env.fs ai_read_prompt
    "Please read and transcribe the text in this image." (some image_path)

/-- app.py `ai_read_image`. -/
def ai_read_image (env : Env) (tr : Trace) (image_path : String) :
    Trace × Except String String :=
  groq_completion env tr (ai_read_image_messages env image_path)

/-- The f-string prompt of app.py `create_final_version`. -/
def final_prompt (optimized_markdown : String) : String :=
  "\n    Based on the following optimized markdown, create a final version that matches the original page text as closely as possible.\n    Remove any additional text or explanations that were added during the optimization process.\n    Ensure that the final output is clean, properly formatted markdown that represents only the content from the original PDF.\n\n    Optimized markdown:\n    "
  ++ optimized_markdown
  ++ "\n    ---\n    REMEMBER: The final output should only be the markdown, That matches the original page text with no additional text or explanations.\n    "

/-- app.py `create_final_version`. -/
def create_final_version (env : Env) (tr : Trace) (optimized_markdown : String)
    (image_path : String) : Trace × Except String String :=
  groq_completion env tr
    (prepare_messages env.fs (final_prompt optimized_markdown)
      "Create final version" (some image_path))

/-- The body of the `try` block of app.py `process_page`: OCR, prefix the
text with `"OCR Text:\n"`, initial conversion, the hardcoded `range(1)`
feedback loop, final version.  Returns the trace of completion requests
together with either the final version or the first raised error. -/
def process_page_core (env : Env) (image_path : String) : Trace × Except String String :=
  match env.ocr image_path with
  | Except.error e => ([], Except.error e)
  | Except.ok ocr_text =>
    let combined_text := "OCR Text:\n" ++ ocr_text
    match initial_markdown_conversion env [] combined_text (some image_path) with
    | (tr1, Except.error e) => (tr1, Except.error e)
    | (tr1, Except.ok initial_markdown) =>
      match feedback_iterations env 1 tr1 combined_text initial_markdown with
      | (tr2, Except.error e) => (tr2, Except.error e)
      | (tr2, Except.ok improved_markdown) =>
        create_final_version env tr2 improved_markdown image_path

/-- app.py `process_page`: on success, write `format_markdown` of the
final version to `output_path` and return the (unformatted) final
version; on any raised error, write nothing and return the empty string.
The result is (returned value, file writes, completion-request trace).
`format_markdown` (processor/text.py) is not among the sources; the spec
describes it as an external pure text-to-text markdown normalizer, so it
is passed in as an explicit function parameter. -/
def process_page (env : Env) (format_markdown : String → String)
    (image_path output_path : String) : String × List (String × String) × Trace :=
  match process_page_core env image_path with
  | (tr, Except.ok final_version) =>
      (final_version, [(output_path, format_markdown final_version)], tr)
  | (tr, Except.error _) => ("", [], tr)

/-- app.py `main`: `images_path` for `file_name = "file.pdf"`. -/
def images_path : String := "./data/file/images"

/-- app.py `main`: `markdowns_path`. -/
def markdowns_path : String := "./data/file/markdowns"

/-- app.py `main`: the path the page-`i` image is saved to. -/
def image_path_for (i : Nat) : String :=
  images_path ++ "/page_" ++ toString i ++ ".png"

/-- app.py `main`: the markdown output path for page `i`. -/
def output_path_for (i : Nat) : String :=
  markdowns_path ++ "/page_" ++ toString i ++ ".md"

/-- app.py `main`: the `image.save(image_path, "PNG")` calls of the
enumeration loop, as (path, PIL format) pairs, for an `n`-page PDF. -/
def main_image_saves (n : Nat) : List (String × String) :=
  (List.range n).map (fun i => (image_path_for (i + 1), "PNG"))

/-- app.py `main`: the per-page `process_page` results, in page order,
for an `n`-page PDF. -/
def main_results (env : Env) (format_markdown : String → String) (n : Nat) :
    List (String × List (String × String) × Trace) :=
  (List.range n).map
    (fun i => process_page env format_markdown (image_path_for (i + 1)) (output_path_for (i + 1)))

/-- The initial-conversion request of `process_page` (OCR text `t`). -/
def msg1 (env : Env) (p t : String) : List Message :=
  prepare_messages env.fs initial_prompt ("OCR Text:\n" ++ t) (some p)

/-- The feedback-generation request of `process_page` (initial markdown `im`). -/
def msg2 (env : Env) (t im : String) : List Message :=
  prepare_messages env.fs (feedback_prompt ("OCR Text:\n" ++ t) im)
    "Provide feedback for improvement" none

/-- The feedback-application request of `process_page` (feedback `fb`). -/
def msg3 (env : Env) (fb im : String) : List Message :=
  prepare_messages env.fs (improve_prompt fb im)
    "Improve the markdown based on feedback" none

/-- The final-version request of `process_page` (improved markdown `imp`). -/
def msg4 (env : Env) (p imp : String) : List Message :=
  prepare_messages env.fs (final_prompt imp) "Create final version" (some p)

end App

namespace Translate

/-- The fixed system message content of translate.py `prepare_messages`,
verbatim (the Python triple-quoted literal, whose continuation lines are
indented by twelve spaces). -/
def translator_system_instruction : String :=
  "You are a professional translator.\n            **Translator Instructions**\n            - Translate the given content into the target language\n            - Return **only the translated text**; avoid additional explanations\n            - Ensure translations are accurate and _precisely match_ the source content\x27s intent\n            - **Do not** engage in dialogue or answer user queries—your sole role is to translate\n            - Maintain strict adherence to formatting (e.g., preserve **bold**, *italics* ... etc).\n            > *Note:* All responses should focus exclusively on translation quality without deviations."

/-- translate.py `prepare_messages`: fixed system message, instruction
message, content message, then — when `image_path` is truthy — one extra
user message with the inline jpeg data-URL attachment. -/
def prepare_messages (fs : String → List Nat) (prompt content image_path : String) :
    List Message :=
  let messages : List Message :=
    [⟨"system", Content.text translator_system_instruction⟩,
     ⟨"user", Content.text prompt⟩,
     ⟨"user", Content.text content⟩]
  if image_path = "" then messages
  else
    messages ++
      [⟨"user", Content.imageUrl ("data:image/jpeg;base64," ++ encode_image_to_base64 fs image_path)⟩]

/-- translate.py `translate_text`: build the request and call the
backend once; the request itself is returned alongside the answer. -/
def translate_text (env : Env) (text image_path target_language : String) :
    List Message × Except String String :=
  let prompt := "Translate the following text to " ++ target_language
      ++ ", preserving all formatting and structure"
  let messages := prepare_messages env.fs prompt text image_path
  (messages, env.complete messages)

/-- translate.py `process_content`: read the text file, translate it,
and on success write `format_markdown` of the translation to
`output_path`; any raised error yields the empty string and no write.
The result is (returned value, file writes). -/
def process_content (env : Env) (format_markdown : String → String)
    (text_file_path image_file_path output_path target_language : String) :
    String × List (String × String) :=
  match env.readFile text_file_path with
  | Except.error _ => ("", [])
  | Except.ok content =>
    match (translate_text env content image_file_path target_language).2 with
    | Except.error _ => ("", [])
    | Except.ok translated_content =>
        (translated_content, [(output_path, format_markdown translated_content)])

/-- translate.py `main`: the directory holding the files to translate. -/
def text_input_dir : String := "./data/file/markdowns"

/-- translate.py `main`: the directory holding the page images. -/
def image_input_dir : String := "./data/file/images"

/-- translate.py `main`: the directory for translated output. -/
def translations_dir : String := "./data/file/translations"

/-- translate.py `main`: `filename.split("_")[1].split(".")[0]` (with
out-of-range indexing giving `""` instead of Python's `IndexError`). -/
def page_number_of (filename : String) : String :=
  (py_split '.' ((py_split '_' filename).getD 1 "")).getD 0 ""

/-- translate.py `main`: the per-file loop over `os.listdir` of the
markdowns directory, with target language `"English"`: per input file,
the (returned value, file writes) pair of its processing; directories
are skipped. -/
def main_run (env : Env) (format_markdown : String → String)
    (filenames : List String) : List (String × List (String × String)) :=
  filenames.map (fun filename =>
    let page_number := page_number_of filename
    let text_file_path := text_input_dir ++ "/" ++ filename
    let image_file_name := py_replace filename ".md" ".png"
    let image_file_path := image_input_dir ++ "/" ++ image_file_name
    if env.isDir text_file_path then ("", [])
    else
      let output_path := translations_dir ++ "/page_" ++ page_number ++ ".md"
      process_content env format_markdown text_file_path image_file_path output_path "English")

end Translate

/-- Whether a request's last message is an inline image attachment. -/
def last_is_image (msgs : List Message) : Bool :=
  match msgs.getLast? with
  | some ⟨_, Content.imageUrl _⟩ => true
  | _ => false

/-- A request that some invocation of app.py `meta_reasoning` could send. -/
def IsMetaRequest (msgs : List Message) : Prop :=
  ∃ (env : Env) (original_text : String) (markdown_versions : List String)
    (image_path : Option String),
    msgs = App.meta_reasoning_messages env original_text markdown_versions image_path

/-- A request that some invocation of app.py `ai_read_image` could send. -/
def IsAiReadRequest (msgs : List Message) : Prop :=
  ∃ (env : Env) (image_path : String), msgs = App.ai_read_image_messages env image_path

/-- A healthy oracle environment used to instantiate theorems. -/
def envA : Env :=
  ⟨fun _ => [], fun _ => Except.ok "T", fun _ => Except.ok "X",
   fun _ => Except.ok "MD", fun _ => false⟩

/-- An environment whose OCR call fails exactly on the page-2 image. -/
def envB : Env :=
  ⟨fun _ => [], fun q => if q = App.image_path_for 2 then Except.error "boom" else Except.ok "T",
   fun _ => Except.ok "X", fun _ => Except.ok "MD", fun _ => false⟩

/-- A non-identity markdown post-formatter used to instantiate theorems. -/
def fmt_bang : String → String := fun s => s ++ "!"

/-- Two strings differ when, under a fixed left factor, they disagree at
some character index inside that factor. -/
theorem ne_of_data_get (p s q : String) (i : Nat) (c d : Char)
    (hp : p.data[i]? = some c) (hq : q.data[i]? = some d) (hcd : c ≠ d) :
    p ++ s ≠ q := by
  intro h
  have hd : p.data ++ s.data = q.data := by
    have := congrArg String.data h
    rwa [String.data_append] at this
  have hip : i < p.data.length := (List.getElem?_eq_some.mp hp).1
  have h1 : (p.data ++ s.data)[i]? = some c := by
    rw [List.getElem?_append_left hip]; exact hp
  rw [hd] at h1
  rw [hq] at h1
  exact hcd (Option.some.inj h1).symm

/-- Two concatenations differ when their fixed left factors disagree at
some character index inside both factors. -/
theorem ne_of_data_get2 (p s q t : String) (i : Nat) (c d : Char)
    (hp : p.data[i]? = some c) (hq : q.data[i]? = some d) (hcd : c ≠ d) :
    p ++ s ≠ q ++ t := by
  intro h
  have hd : p.data ++ s.data = q.data ++ t.data := by
    have := congrArg String.data h
    rwa [String.data_append, String.data_append] at this
  have hip : i < p.data.length := (List.getElem?_eq_some.mp hp).1
  have hiq : i < q.data.length := (List.getElem?_eq_some.mp hq).1
  have h1 : (p.data ++ s.data)[i]? = some c := by
    rw [List.getElem?_append_left hip]; exact hp
  have h2 : (q.data ++ t.data)[i]? = some d := by
    rw [List.getElem?_append_left hiq]; exact hq
  rw [hd, h2] at h1
  exact hcd (Option.some.inj h1).symm

namespace App

/-- The second message of every request built by app.py
`prepare_messages` is the user content message. -/
theorem prepare_messages_getElem_one (fs : String → List Nat) (pr c : String)
    (ip : Option String) :
    (prepare_messages fs pr c ip)[1]? = some (Message.mk "user" (Content.text c)) := by
  cases ip with
  | none => rfl
  | some p =>
    by_cases hp : p = "" <;> simp [prepare_messages, hp]

/-- Requests with distinct content messages are distinct. -/
theorem prepare_ne_of_content (fs fs2 : String → List Nat) (pr c pr2 c2 : String)
    (ip ip2 : Option String) (hc : c ≠ c2) :
    prepare_messages fs pr c ip ≠ prepare_messages fs2 pr2 c2 ip2 := by
  intro h
  have e1 := prepare_messages_getElem_one fs pr c ip
  rw [h, prepare_messages_getElem_one] at e1
  exact hc (Content.text.inj (congrArg Message.content (Option.some.inj e1))).symm

/-- The trace of `process_page` is the trace of its `try`-block body. -/
theorem process_page_trace_eq (env : Env) (fmt : String → String) (p o : String) :
    (process_page env fmt p o).2.2 = (process_page_core env p).1 := by
  unfold process_page
  rcases process_page_core env p with ⟨tr, r⟩
  cases r <;> rfl

/-- Decomposition of a successful `process_page` run: the OCR answer and
the four completion answers all succeeded, the single write is the
formatted final version, and the trace is exactly the four stage
requests in order. -/
theorem process_page_success_shape (env : Env) (fmt : String → String) (p o v : String)
    (w : List (String × String)) (tr : Trace)
    (h : process_page env fmt p o = (v, w, tr)) (hw : w ≠ []) :
    ∃ t im fb imp,
      env.ocr p = Except.ok t ∧
      env.complete (msg1 env p t) = Except.ok im ∧
      env.complete (msg2 env t im) = Except.ok fb ∧
      env.complete (msg3 env fb im) = Except.ok imp ∧
      env.complete (msg4 env p imp) = Except.ok v ∧
      w = [(o, fmt v)] ∧
      tr = [msg1 env p t, msg2 env t im, msg3 env fb im, msg4 env p imp] := by
  unfold process_page process_page_core at h
  cases hocr : env.ocr p with
  | error e =>
    rw [hocr] at h
    simp at h
    exact absurd h.2.1 hw
  | ok t =>
    rw [hocr] at h
    simp only [initial_markdown_conversion, groq_completion, List.nil_append] at h
    cases hc1 : env.complete (msg1 env p t) with
    | error e =>
      rw [msg1] at hc1; rw [hc1] at h
      simp at h
      exact absurd h.2.1 hw
    | ok im =>
      rw [msg1] at hc1; rw [hc1] at h
      simp only [feedback_iterations, feedback_loop, groq_completion] at h
      cases hc2 : env.complete (msg2 env t im) with
      | error e =>
        rw [msg2] at hc2; rw [hc2] at h
        simp at h
        exact absurd h.2.1 hw
      | ok fb =>
        rw [msg2] at hc2; rw [hc2] at h
        dsimp only at h
        cases hc3 : env.complete (msg3 env fb im) with
        | error e =>
          rw [msg3] at hc3; rw [hc3] at h
          simp at h
          exact absurd h.2.1 hw
        | ok imp =>
          rw [msg3] at hc3; rw [hc3] at h
          simp only [create_final_version, groq_completion] at h
          cases hc4 : env.complete (msg4 env p imp) with
          | error e =>
            rw [msg4] at hc4; rw [hc4] at h
            simp at h
            exact absurd h.2.1 hw
          | ok fv =>
            rw [msg4] at hc4; rw [hc4] at h
            simp at h
            obtain ⟨hv, hw', htr⟩ := h
            subst hv
            exact ⟨t, im, fb, imp, rfl, hc1, hc2, hc3, hc4, hw'.symm, htr.symm⟩

end App

namespace App

/-- Frame property of the `try`-block body of `process_page`: its outcome
only depends on the oracles through the page's own OCR answer, the
page's own file bytes, and the completion answers to the requests the
run itself issues. -/
theorem process_page_core_frame (env env' : Env) (p : String)
    (h1 : env'.ocr p = env.ocr p) (h2 : env'.fs p = env.fs p)
    (h3 : ∀ msgs ∈ (process_page_core env p).1, env'.complete msgs = env.complete msgs) :
    process_page_core env' p = process_page_core env p := by
  have hprep : ∀ pr c, prepare_messages env'.fs pr c (some p) = prepare_messages env.fs pr c (some p) := by
    intro pr c
    simp [prepare_messages, encode_image_to_base64, h2]
  have hprepn : ∀ pr c, prepare_messages env'.fs pr c none = prepare_messages env.fs pr c none :=
    fun _ _ => rfl
  cases hocr : env.ocr p with
  | error e => simp only [process_page_core, h1, hocr]
  | ok t =>
    cases hc1 : env.complete (prepare_messages env.fs initial_prompt ("OCR Text:\n" ++ t) (some p)) with
    | error e =>
      have hcore : process_page_core env p
          = ([prepare_messages env.fs initial_prompt ("OCR Text:\n" ++ t) (some p)],
             Except.error e) := by
        simp [process_page_core, initial_markdown_conversion, groq_completion, hocr, hc1]
      have e1 := h3 (prepare_messages env.fs initial_prompt ("OCR Text:\n" ++ t) (some p))
        (by rw [hcore]; simp)
      rw [hcore]
      simp [process_page_core, initial_markdown_conversion, groq_completion, h1, hocr, hprep, e1, hc1]
    | ok im =>
      cases hc2 : env.complete (prepare_messages env.fs
          (feedback_prompt ("OCR Text:\n" ++ t) im) "Provide feedback for improvement" none) with
      | error e =>
        have hcore : process_page_core env p
            = ([prepare_messages env.fs initial_prompt ("OCR Text:\n" ++ t) (some p),
                prepare_messages env.fs (feedback_prompt ("OCR Text:\n" ++ t) im)
                  "Provide feedback for improvement" none],
               Except.error e) := by
          simp [process_page_core, initial_markdown_conversion, groq_completion,
            feedback_iterations, feedback_loop, hocr, hc1, hc2]
        have e1 := h3 (prepare_messages env.fs initial_prompt ("OCR Text:\n" ++ t) (some p))
          (by rw [hcore]; simp)
        have e2 := h3 (prepare_messages env.fs (feedback_prompt ("OCR Text:\n" ++ t) im)
            "Provide feedback for improvement" none)
          (by rw [hcore]; simp)
        rw [hcore]
        simp [process_page_core, initial_markdown_conversion, groq_completion,
          feedback_iterations, feedback_loop, h1, hocr, hprep, hprepn, e1, hc1, e2, hc2]
      | ok fb =>
        cases hc3 : env.complete (prepare_messages env.fs
            (improve_prompt fb im) "Improve the markdown based on feedback" none) with
        | error e =>
          have hcore : process_page_core env p
              = ([prepare_messages env.fs initial_prompt ("OCR Text:\n" ++ t) (some p),
                  prepare_messages env.fs (feedback_prompt ("OCR Text:\n" ++ t) im)
                    "Provide feedback for improvement" none,
                  prepare_messages env.fs (improve_prompt fb im)
                    "Improve the markdown based on feedback" none],
                 Except.error e) := by
            simp [process_page_core, initial_markdown_conversion, groq_completion,
              feedback_iterations, feedback_loop, hocr, hc1, hc2, hc3]
          have e1 := h3 (prepare_messages env.fs initial_prompt ("OCR Text:\n" ++ t) (some p))
            (by rw [hcore]; simp)
          have e2 := h3 (prepare_messages env.fs (feedback_prompt ("OCR Text:\n" ++ t) im)
              "Provide feedback for improvement" none)
            (by rw [hcore]; simp)
          have e3 := h3 (prepare_messages env.fs (improve_prompt fb im)
              "Improve the markdown based on feedback" none)
            (by rw [hcore]; simp)
          rw [hcore]
          simp [process_page_core, initial_markdown_conversion, groq_completion,
            feedback_iterations, feedback_loop, h1, hocr, hprep, hprepn, e1, hc1, e2, hc2, e3, hc3]
        | ok imp =>
          cases hc4 : env.complete (prepare_messages env.fs
              (final_prompt imp) "Create final version" (some p)) with
          | error e =>
            have hcore : process_page_core env p
                = ([prepare_messages env.fs initial_prompt ("OCR Text:\n" ++ t) (some p),
                    prepare_messages env.fs (feedback_prompt ("OCR Text:\n" ++ t) im)
                      "Provide feedback for improvement" none,
                    prepare_messages env.fs (improve_prompt fb im)
                      "Improve the markdown based on feedback" none,
                    prepare_messages env.fs (final_prompt imp) "Create final version" (some p)],
                   Except.error e) := by
              simp [process_page_core, initial_markdown_conversion, groq_completion,
                feedback_iterations, feedback_loop, create_final_version, hocr, hc1, hc2, hc3, hc4]
            have e1 := h3 (prepare_messages env.fs initial_prompt ("OCR Text:\n" ++ t) (some p))
              (by rw [hcore]; simp)
            have e2 := h3 (prepare_messages env.fs (feedback_prompt ("OCR Text:\n" ++ t) im)
                "Provide feedback for improvement" none)
              (by rw [hcore]; simp)
            have e3 := h3 (prepare_messages env.fs (improve_prompt fb im)
                "Improve the markdown based on feedback" none)
              (by rw [hcore]; simp)
            have e4 := h3 (prepare_messages env.fs (final_prompt imp) "Create final version" (some p))
              (by rw [hcore]; simp)
            rw [hcore]
            simp [process_page_core, initial_markdown_conversion, groq_completion,
              feedback_iterations, feedback_loop, create_final_version, h1, hocr, hprep, hprepn,
              e1, hc1, e2, hc2, e3, hc3, e4, hc4]
          | ok fv =>
            have hcore : process_page_core env p
                = ([prepare_messages env.fs initial_prompt ("OCR Text:\n" ++ t) (some p),
                    prepare_messages env.fs (feedback_prompt ("OCR Text:\n" ++ t) im)
                      "Provide feedback for improvement" none,
                    prepare_messages env.fs (improve_prompt fb im)
                      "Improve the markdown based on feedback" none,
                    prepare_messages env.fs (final_prompt imp) "Create final version" (some p)],
                   Except.ok fv) := by
              simp [process_page_core, initial_markdown_conversion, groq_completion,
                feedback_iterations, feedback_loop, create_final_version, hocr, hc1, hc2, hc3, hc4]
            have e1 := h3 (prepare_messages env.fs initial_prompt ("OCR Text:\n" ++ t) (some p))
              (by rw [hcore]; simp)
            have e2 := h3 (prepare_messages env.fs (feedback_prompt ("OCR Text:\n" ++ t) im)
                "Provide feedback for improvement" none)
              (by rw [hcore]; simp)
            have e3 := h3 (prepare_messages env.fs (improve_prompt fb im)
                "Improve the markdown based on feedback" none)
              (by rw [hcore]; simp)
            have e4 := h3 (prepare_messages env.fs (final_prompt imp) "Create final version" (some p))
              (by rw [hcore]; simp)
            rw [hcore]
            simp [process_page_core, initial_markdown_conversion, groq_completion,
              feedback_iterations, feedback_loop, create_final_version, h1, hocr, hprep, hprepn,
              e1, hc1, e2, hc2, e3, hc3, e4, hc4]

/-- Frame property of `process_page` (same statement lifted through the
`try`/`except` wrapper). -/
theorem process_page_frame (env env' : Env) (fmt : String → String) (p o : String)
    (h1 : env'.ocr p = env.ocr p) (h2 : env'.fs p = env.fs p)
    (h3 : ∀ msgs ∈ (process_page env fmt p o).2.2, env'.complete msgs = env.complete msgs) :
    process_page env' fmt p o = process_page env fmt p o := by
  have h3' : ∀ msgs ∈ (process_page_core env p).1, env'.complete msgs = env.complete msgs := by
    intro msgs hm
    exact h3 msgs (by rw [process_page_trace_eq]; exact hm)
  unfold process_page
  rw [process_page_core_frame env env' p h1 h2 h3']

/-- Once OCR has answered, the trace of the `try`-block body is one of
the four prefixes of the full request sequence. -/
theorem core_trace_cases (env : Env) (p t : String) (hocr : env.ocr p = Except.ok t) :
    ∃ im fb imp,
      (process_page_core env p).1 = [msg1 env p t] ∨
      (process_page_core env p).1 = [msg1 env p t, msg2 env t im] ∨
      (process_page_core env p).1 = [msg1 env p t, msg2 env t im, msg3 env fb im] ∨
      (process_page_core env p).1 =
        [msg1 env p t, msg2 env t im, msg3 env fb im, msg4 env p imp] := by
  cases hc1 : env.complete (prepare_messages env.fs initial_prompt ("OCR Text:\n" ++ t) (some p)) with
  | error e =>
    refine ⟨"", "", "", Or.inl ?_⟩
    simp [process_page_core, initial_markdown_conversion, groq_completion, hocr, hc1, msg1]
  | ok im =>
    cases hc2 : env.complete (prepare_messages env.fs
        (feedback_prompt ("OCR Text:\n" ++ t) im) "Provide feedback for improvement" none) with
    | error e =>
      refine ⟨im, "", "", Or.inr (Or.inl ?_)⟩
      simp [process_page_core, initial_markdown_conversion, groq_completion,
        feedback_iterations, feedback_loop, hocr, hc1, hc2, msg1, msg2]
    | ok fb =>
      cases hc3 : env.complete (prepare_messages env.fs
          (improve_prompt fb im) "Improve the markdown based on feedback" none) with
      | error e =>
        refine ⟨im, fb, "", Or.inr (Or.inr (Or.inl ?_))⟩
        simp [process_page_core, initial_markdown_conversion, groq_completion,
          feedback_iterations, feedback_loop, hocr, hc1, hc2, hc3, msg1, msg2, msg3]
      | ok imp =>
        refine ⟨im, fb, imp, Or.inr (Or.inr (Or.inr ?_))⟩
        simp [process_page_core, initial_markdown_conversion, groq_completion,
          feedback_iterations, feedback_loop, create_final_version, hocr, hc1, hc2, hc3, msg1, msg2, msg3, msg4]

end App

/-- An environment whose OCR answer is the empty string. -/
def envE : Env :=
  ⟨fun _ => [], fun _ => Except.ok "", fun _ => Except.ok "X",
   fun _ => Except.ok "MD", fun _ => false⟩

/-- C2: app.py `prepare_messages` yields exactly
`[(user, X), (user, Y), (user, image-attachment)]` in that order when an
image (a non-empty path) is present, and exactly `[(user, X), (user, Y)]`
with no extra messages when the image is omitted. -/
theorem C2_message_builder_exact (fs : String → List Nat) (X Y p : String) (hp : p ≠ "") :
    App.prepare_messages fs X Y none =
      [Message.mk "user" (Content.text X), Message.mk "user" (Content.text Y)]
    ∧ App.prepare_messages fs X Y (some p) =
      [Message.mk "user" (Content.text X), Message.mk "user" (Content.text Y),
       Message.mk "user" (Content.imageUrl
         ("data:image/jpeg;base64," ++ encode_image_to_base64 fs p))] := by
  refine ⟨rfl, ?_⟩
  simp [App.prepare_messages, hp]

/-- Witness for C2 at a concrete builder input. -/
theorem C2_message_builder_exact_witness :
    ("p" : String) ≠ "" ∧
    (App.prepare_messages (fun _ => []) "X" "Y" none =
      [Message.mk "user" (Content.text "X"), Message.mk "user" (Content.text "Y")]
    ∧ App.prepare_messages (fun _ => []) "X" "Y" (some "p") =
      [Message.mk "user" (Content.text "X"), Message.mk "user" (Content.text "Y"),
       Message.mk "user" (Content.imageUrl
         ("data:image/jpeg;base64," ++ encode_image_to_base64 (fun _ => []) "p"))]) :=
  ⟨by decide, C2_message_builder_exact (fun _ => []) "X" "Y" "p" (by decide)⟩

/-- C3 (amended): the feedback stage of `process_page` is hardcoded to
exactly one `feedback_loop` pass — a successful run issues exactly
4 = 1 + 2 + 1 completion requests — and the generalized iteration run
zero times would be a no-op; no configuration parameter exists. -/
theorem C3_feedback_hardcoded_single_pass (env env2 : Env) (fmt : String → String)
    (p o v : String) (w : List (String × String)) (tr tr2 : Trace) (ot md : String)
    (h : App.process_page env fmt p o = (v, w, tr)) (hw : w ≠ []) :
    App.feedback_iterations env2 0 tr2 ot md = (tr2, Except.ok md) ∧ tr.length = 4 := by
  refine ⟨rfl, ?_⟩
  obtain ⟨t, im, fb, imp, _, _, _, _, _, _, htr⟩ :=
    App.process_page_success_shape env fmt p o v w tr h hw
  rw [htr]; rfl

/-- Witness for C3 at a concrete environment. -/
theorem C3_feedback_hardcoded_single_pass_witness :
    App.feedback_iterations envA 0 [] "o2" "m2" = ([], Except.ok "m2")
    ∧ (App.process_page envA fmt_bang "p" "o").2.2.length = 4 := by
  have h : App.process_page envA fmt_bang "p" "o" =
      ("X", [("o", "X!")], (App.process_page envA fmt_bang "p" "o").2.2) := by decide
  have hw : ([("o", "X!")] : List (String × String)) ≠ [] := by decide
  obtain ⟨c1, c2⟩ := C3_feedback_hardcoded_single_pass envA envA fmt_bang "p" "o" "X"
    [("o", "X!")] ((App.process_page envA fmt_bang "p" "o").2.2) [] "o2" "m2" h hw
  exact ⟨c1, c2⟩

/-- Counterexample to C3 as stated: the stage is not configurable and is
never a no-op — on a concrete environment the single hardcoded feedback
pass replaces the markdown (`md0` becomes the backend answer `X`), and a
full page run issues 4 requests, not the 2 a `K=0` run would issue. -/
theorem C3_counterexample :
    (App.feedback_iterations envA 1 [] "orig" "md0").2 = Except.ok "X"
    ∧ (App.feedback_iterations envA 1 [] "orig" "md0").2 ≠ Except.ok "md0"
    ∧ (App.process_page envA fmt_bang "p" "o").2.2.length = 4 := by
  refine ⟨rfl, ?_, rfl⟩
  intro hcontra
  rw [show (App.feedback_iterations envA 1 [] "orig" "md0").2 = Except.ok "X" from rfl] at hcontra
  exact absurd (Except.ok.inj hcontra) (by decide)

/-- C4 (amended): whenever OCR answers (even with the empty string), the
first completion request of `process_page` is the initial-conversion
request whose content message is the OCR text prefixed with the literal
header `"OCR Text:\n"`, and (for a non-empty image path) that request
ends with the inline image attachment. -/
theorem C4_initial_request_content (env : Env) (fmt : String → String) (p o t : String)
    (h : env.ocr p = Except.ok t) (hp : p ≠ "") :
    (App.process_page env fmt p o).2.2[0]? =
      some (App.prepare_messages env.fs App.initial_prompt ("OCR Text:\n" ++ t) (some p))
    ∧ (App.prepare_messages env.fs App.initial_prompt ("OCR Text:\n" ++ t) (some p)).getLast? =
      some (Message.mk "user" (Content.imageUrl
        ("data:image/jpeg;base64," ++ encode_image_to_base64 env.fs p))) := by
  constructor
  · rw [App.process_page_trace_eq]
    obtain ⟨im, fb, imp, hc⟩ := App.core_trace_cases env p t h
    rcases hc with h4 | h4 | h4 | h4 <;> rw [h4] <;> rfl
  · simp [App.prepare_messages, hp]

/-- Witness for C4 at the empty-OCR boundary. -/
theorem C4_initial_request_content_witness :
    envE.ocr "p" = Except.ok "" ∧ ("p" : String) ≠ ""
    ∧ ((App.process_page envE fmt_bang "p" "o").2.2[0]? =
        some (App.prepare_messages envE.fs App.initial_prompt ("OCR Text:\n" ++ "") (some "p"))
      ∧ (App.prepare_messages envE.fs App.initial_prompt ("OCR Text:\n" ++ "") (some "p")).getLast? =
        some (Message.mk "user" (Content.imageUrl
          ("data:image/jpeg;base64," ++ encode_image_to_base64 envE.fs "p")))) :=
  ⟨rfl, by decide, C4_initial_request_content envE fmt_bang "p" "o" "" rfl (by decide)⟩

/-- Counterexample to C4 as stated: on a concrete run with OCR text `T`,
the first request's content is `"OCR Text:\nT"`, not the OCR text `T`
alone. -/
theorem C4_counterexample :
    (App.process_page envA fmt_bang "p" "o").2.2[0]? =
      some (App.prepare_messages envA.fs App.initial_prompt ("OCR Text:\nT") (some "p"))
    ∧ (App.process_page envA fmt_bang "p" "o").2.2[0]? ≠
      some (App.prepare_messages envA.fs App.initial_prompt "T" (some "p")) := by
  constructor
  · decide
  · decide

/-- C5 (amended): for every successfully processed page the engine
persists exactly one artifact, the markdown post-formatter applied once
to the final completion answer `v` (the answer to the last request of
the trace), while `process_page` returns the unformatted `v` itself. -/
theorem C5_persisted_and_returned (env : Env) (fmt : String → String) (p o v : String)
    (w : List (String × String)) (tr : Trace)
    (h : App.process_page env fmt p o = (v, w, tr)) (hw : w ≠ []) :
    w = [(o, fmt v)] ∧ env.complete (tr.getLastD []) = Except.ok v := by
  obtain ⟨t, im, fb, imp, _, _, _, _, hc4, hw', htr⟩ :=
    App.process_page_success_shape env fmt p o v w tr h hw
  refine ⟨hw', ?_⟩
  rw [htr]
  exact hc4

/-- Witness for C5 at a concrete environment and non-identity formatter. -/
theorem C5_persisted_and_returned_witness :
    App.process_page envA fmt_bang "p" "o" =
      ("X", [("o", "X!")], (App.process_page envA fmt_bang "p" "o").2.2)
    ∧ ([("o", "X!")] : List (String × String)) ≠ []
    ∧ ([("o", "X!")] : List (String × String)) = [("o", fmt_bang "X")]
    ∧ envA.complete ((App.process_page envA fmt_bang "p" "o").2.2.getLastD []) = Except.ok "X" := by
  have h : App.process_page envA fmt_bang "p" "o" =
      ("X", [("o", "X!")], (App.process_page envA fmt_bang "p" "o").2.2) := by decide
  have hw : ([("o", "X!")] : List (String × String)) ≠ [] := by decide
  obtain ⟨c1, c2⟩ := C5_persisted_and_returned envA fmt_bang "p" "o" "X" [("o", "X!")]
    ((App.process_page envA fmt_bang "p" "o").2.2) h hw
  exact ⟨h, hw, c1, c2⟩

/-- Counterexample to C5 as stated: with a non-identity post-formatter
the persisted artifact is not the returned value — `process_page`
returns the unformatted final completion text. -/
theorem C5_counterexample :
    (App.process_page envA fmt_bang "p" "o").2.1 ≠
      [("o", (App.process_page envA fmt_bang "p" "o").1)] := by
  decide

/-- C1: per-page failure isolation.  If the `try`-block body of page `j`
raises at any stage (OCR or any completion call), `process_page` returns
the empty string for that page and writes nothing; and every other page
`i+1` of the document — whose own OCR answer, file bytes, and completion
answers are untouched by the fault — produces in `main` exactly the
result it produces under the healthy environment. -/
theorem C1_per_page_failure_isolation (env env' : Env) (fmt : String → String)
    (n j i : Nat) (trj : Trace) (e : String)
    (hocr : ∀ k, k ≠ j → env'.ocr (App.image_path_for k) = env.ocr (App.image_path_for k))
    (hfs : ∀ k, k ≠ j → env'.fs (App.image_path_for k) = env.fs (App.image_path_for k))
    (hcomp : ∀ k, k ≠ j →
      ∀ msgs ∈ (App.process_page env fmt (App.image_path_for k) (App.output_path_for k)).2.2,
        env'.complete msgs = env.complete msgs)
    (hfail : App.process_page_core env' (App.image_path_for j) = (trj, Except.error e))
    (hi : i < n) (hij : i + 1 ≠ j) :
    App.process_page env' fmt (App.image_path_for j) (App.output_path_for j) = ("", [], trj)
    ∧ (App.main_results env' fmt n)[i]? =
        some (App.process_page env fmt (App.image_path_for (i + 1)) (App.output_path_for (i + 1))) := by
  constructor
  · unfold App.process_page
    rw [hfail]
  · unfold App.main_results
    rw [List.getElem?_map, List.getElem?_range hi, Option.map_some']
    exact congrArg some
      (App.process_page_frame env env' fmt (App.image_path_for (i + 1)) (App.output_path_for (i + 1))
        (hocr (i + 1) hij) (hfs (i + 1) hij) (hcomp (i + 1) hij))

/-- Witness for C1: OCR fails on page 2 of a 2-page document; page 2
yields the empty result with no write, page 1 is unaffected. -/
theorem C1_per_page_failure_isolation_witness :
    App.process_page_core envB (App.image_path_for 2) = ([], Except.error "boom")
    ∧ (App.process_page envB fmt_bang (App.image_path_for 2) (App.output_path_for 2) = ("", [], [])
      ∧ (App.main_results envB fmt_bang 2)[0]? =
          some (App.process_page envB fmt_bang (App.image_path_for 1) (App.output_path_for 1))) := by
  have hfail : App.process_page_core envB (App.image_path_for 2) = ([], Except.error "boom") := by
    rfl
  exact ⟨hfail, C1_per_page_failure_isolation envB envB fmt_bang 2 2 0 [] "boom"
    (fun _ _ => rfl) (fun _ _ => rfl) (fun _ _ _ _ => rfl) hfail (by decide) (by decide)⟩

/-- C6 (amended): in the per-page flow of `process_page` both feedback
requests end with a plain text message (their last message is the user
content message, not an image attachment), because `process_page` calls
`feedback_loop` without the page image. -/
theorem C6_feedback_requests_no_image (env : Env) (fmt : String → String) (p o v : String)
    (w : List (String × String)) (tr : Trace)
    (h : App.process_page env fmt p o = (v, w, tr)) (hw : w ≠ []) :
    tr[1]?.bind List.getLast? =
      some (Message.mk "user" (Content.text "Provide feedback for improvement"))
    ∧ tr[2]?.bind List.getLast? =
      some (Message.mk "user" (Content.text "Improve the markdown based on feedback"))
    ∧ tr[1]?.map last_is_image = some false
    ∧ tr[2]?.map last_is_image = some false := by
  obtain ⟨t, im, fb, imp, _, _, _, _, _, _, htr⟩ :=
    App.process_page_success_shape env fmt p o v w tr h hw
  subst htr
  exact ⟨rfl, rfl, rfl, rfl⟩

/-- Witness for C6 at a concrete environment. -/
theorem C6_feedback_requests_no_image_witness :
    (App.process_page envA fmt_bang "p" "o").2.2[1]?.bind List.getLast? =
      some (Message.mk "user" (Content.text "Provide feedback for improvement"))
    ∧ (App.process_page envA fmt_bang "p" "o").2.2[2]?.bind List.getLast? =
      some (Message.mk "user" (Content.text "Improve the markdown based on feedback"))
    ∧ (App.process_page envA fmt_bang "p" "o").2.2[1]?.map last_is_image = some false
    ∧ (App.process_page envA fmt_bang "p" "o").2.2[2]?.map last_is_image = some false := by
  have h : App.process_page envA fmt_bang "p" "o" =
      ("X", [("o", "X!")], (App.process_page envA fmt_bang "p" "o").2.2) := by decide
  have hw : ([("o", "X!")] : List (String × String)) ≠ [] := by decide
  exact C6_feedback_requests_no_image envA fmt_bang "p" "o" "X" [("o", "X!")]
    ((App.process_page envA fmt_bang "p" "o").2.2) h hw

/-- Counterexample to C6 as stated: on a concrete run the
feedback-application request (trace entry 2) does not end with an image
attachment — its last message is the plain text content message. -/
theorem C6_counterexample :
    (App.process_page envA fmt_bang "p" "o").2.2[2]?.map last_is_image = some false
    ∧ (App.process_page envA fmt_bang "p" "o").2.2[2]?.bind List.getLast? =
      some (Message.mk "user" (Content.text "Improve the markdown based on feedback")) := by
  exact ⟨by decide, by decide⟩

/-- C7: every request built by the translation engine starts with the
system-role message carrying the fixed translator instructions verbatim,
for every text, image path and target language. -/
theorem C7_translator_system_message (env : Env) (text image_path target_language : String) :
    (Translate.translate_text env text image_path target_language).1[0]? =
      some (Message.mk "system" (Content.text Translate.translator_system_instruction)) := by
  unfold Translate.translate_text Translate.prepare_messages
  by_cases h : image_path = "" <;> simp [h]

/-- C8: every artifact written by the translation driver for input file
`fn` goes to `translations/page_<n>.md` (with `<n>` parsed from `fn`),
and never to any file of the markdowns input directory — the source
markdown artifacts are left untouched. -/
theorem C8_translation_writes_distinct (env : Env) (fmt : String → String)
    (filenames : List String) (k : Nat) (fn fn' : String)
    (out : String × List (String × String)) (w : String × String)
    (hfn : filenames[k]? = some fn)
    (hout : (Translate.main_run env fmt filenames)[k]? = some out)
    (hw : w ∈ out.2) (hfn' : fn' ∈ filenames) :
    w.1 = Translate.translations_dir ++ "/page_" ++ Translate.page_number_of fn ++ ".md"
    ∧ w.1 ≠ Translate.text_input_dir ++ "/" ++ fn' := by
  unfold Translate.main_run at hout
  simp only [List.getElem?_map, hfn, Option.map_some'] at hout
  by_cases hdir : env.isDir (Translate.text_input_dir ++ "/" ++ fn)
  · rw [if_pos hdir] at hout
    obtain rfl := (Option.some.inj hout).symm
    simp at hw
  · rw [if_neg hdir] at hout
    unfold Translate.process_content at hout
    cases hrf : env.readFile (Translate.text_input_dir ++ "/" ++ fn) with
    | error e =>
      rw [hrf] at hout
      obtain rfl := (Option.some.inj hout).symm
      simp at hw
    | ok content =>
      rw [hrf] at hout
      dsimp only at hout
      cases hc : (Translate.translate_text env content
          (Translate.image_input_dir ++ "/" ++ py_replace fn ".md" ".png") "English").2 with
      | error e =>
        rw [hc] at hout
        obtain rfl := (Option.some.inj hout).symm
        simp at hw
      | ok translated =>
        rw [hc] at hout
        obtain rfl := (Option.some.inj hout).symm
        simp at hw
        subst hw
        refine ⟨rfl, ?_⟩
        show Translate.translations_dir ++ "/page_" ++ Translate.page_number_of fn ++ ".md"
          ≠ Translate.text_input_dir ++ "/" ++ fn'
        rw [String.append_assoc,
          show Translate.translations_dir ++ "/page_" = "./data/file/translations/page_" by decide,
          show Translate.text_input_dir ++ "/" = "./data/file/markdowns/" by decide]
        exact ne_of_data_get2 "./data/file/translations/page_"
          (Translate.page_number_of fn ++ ".md") "./data/file/markdowns/" fn' 12 't' 'm'
          (by decide) (by decide) (by decide)

/-- Witness for C8 on the one-file listing `page_3.md`. -/
theorem C8_translation_writes_distinct_witness :
    (["page_3.md"] : List String)[0]? = some "page_3.md"
    ∧ (Translate.main_run envA fmt_bang ["page_3.md"])[0]? =
        some ("X", [("./data/file/translations/page_3.md", "X!")])
    ∧ (("./data/file/translations/page_3.md", "X!") : String × String) ∈
        [(("./data/file/translations/page_3.md" : String), ("X!" : String))]
    ∧ ("page_3.md" : String) ∈ (["page_3.md"] : List String)
    ∧ (("./data/file/translations/page_3.md", "X!") : String × String).1 =
        Translate.translations_dir ++ "/page_" ++ Translate.page_number_of "page_3.md" ++ ".md"
    ∧ (("./data/file/translations/page_3.md", "X!") : String × String).1 ≠
        Translate.text_input_dir ++ "/" ++ "page_3.md" := by
  have h1 : (["page_3.md"] : List String)[0]? = some "page_3.md" := rfl
  have h2 : (Translate.main_run envA fmt_bang ["page_3.md"])[0]? =
      some ("X", [("./data/file/translations/page_3.md", "X!")]) := by decide
  have h3 : (("./data/file/translations/page_3.md", "X!") : String × String) ∈
      [(("./data/file/translations/page_3.md" : String), ("X!" : String))] := by decide
  have h4 : ("page_3.md" : String) ∈ (["page_3.md"] : List String) := by decide
  obtain ⟨c1, c2⟩ := C8_translation_writes_distinct envA fmt_bang ["page_3.md"] 0
    "page_3.md" "page_3.md" ("X", [("./data/file/translations/page_3.md", "X!")])
    ("./data/file/translations/page_3.md", "X!") h1 h2 h3 h4
  exact ⟨h1, h2, h3, h4, c1, c2⟩

/-- C9: no request issued by the default per-page flow of `process_page`
is a `meta_reasoning` request or an `ai_read_image` request, for any
possible arguments of those functions. -/
theorem C9_no_meta_no_ai_read (env env2 env3 : Env) (fmt : String → String)
    (p o ot ip2 : String) (vs : List String) (ip : Option String) (msgs : List Message)
    (h : msgs ∈ (App.process_page env fmt p o).2.2) :
    msgs ≠ App.meta_reasoning_messages env2 ot vs ip
    ∧ msgs ≠ App.ai_read_image_messages env3 ip2 := by
  rw [App.process_page_trace_eq] at h
  cases hocr : env.ocr p with
  | error e =>
    rw [show App.process_page_core env p = ([], Except.error e) by
      simp [App.process_page_core, hocr]] at h
    simp at h
  | ok t =>
    have d1 : App.msg1 env p t ≠ App.meta_reasoning_messages env2 ot vs ip
        ∧ App.msg1 env p t ≠ App.ai_read_image_messages env3 ip2 := by
      constructor
      · exact App.prepare_ne_of_content _ _ _ _ _ _ _ _
          (ne_of_data_get "OCR Text:\n" t
            "Perform meta-reasoning and provide optimized markdown" 0 'O' 'P'
            (by decide) (by decide) (by decide))
      · exact App.prepare_ne_of_content _ _ _ _ _ _ _ _
          (ne_of_data_get "OCR Text:\n" t
            "Please read and transcribe the text in this image." 0 'O' 'P'
            (by decide) (by decide) (by decide))
    have d2 : ∀ im, App.msg2 env t im ≠ App.meta_reasoning_messages env2 ot vs ip
        ∧ App.msg2 env t im ≠ App.ai_read_image_messages env3 ip2 := by
      intro im
      exact ⟨App.prepare_ne_of_content _ _ _ _ _ _ _ _ (by decide),
             App.prepare_ne_of_content _ _ _ _ _ _ _ _ (by decide)⟩
    have d3 : ∀ fb im, App.msg3 env fb im ≠ App.meta_reasoning_messages env2 ot vs ip
        ∧ App.msg3 env fb im ≠ App.ai_read_image_messages env3 ip2 := by
      intro fb im
      exact ⟨App.prepare_ne_of_content _ _ _ _ _ _ _ _ (by decide),
             App.prepare_ne_of_content _ _ _ _ _ _ _ _ (by decide)⟩
    have d4 : ∀ imp, App.msg4 env p imp ≠ App.meta_reasoning_messages env2 ot vs ip
        ∧ App.msg4 env p imp ≠ App.ai_read_image_messages env3 ip2 := by
      intro imp
      exact ⟨App.prepare_ne_of_content _ _ _ _ _ _ _ _ (by decide),
             App.prepare_ne_of_content _ _ _ _ _ _ _ _ (by decide)⟩
    obtain ⟨im, fb, imp, hc⟩ := App.core_trace_cases env p t hocr
    rcases hc with h4 | h4 | h4 | h4
    · rw [h4] at h
      simp at h
      subst h
      exact d1
    · rw [h4] at h
      simp at h
      rcases h with rfl | rfl
      · exact d1
      · exact d2 im
    · rw [h4] at h
      simp at h
      rcases h with rfl | rfl | rfl
      · exact d1
      · exact d2 im
      · exact d3 fb im
    · rw [h4] at h
      simp at h
      rcases h with rfl | rfl | rfl | rfl
      · exact d1
      · exact d2 im
      · exact d3 fb im
      · exact d4 imp

/-- Witness for C9: the first request of a concrete run is neither a
meta-reasoning request nor an AI-image-reading request. -/
theorem C9_no_meta_no_ai_read_witness :
    App.msg1 envA "p" "T" ∈ (App.process_page envA fmt_bang "p" "o").2.2
    ∧ (App.msg1 envA "p" "T" ≠ App.meta_reasoning_messages envA "ot" ["v1"] (some "q")
      ∧ App.msg1 envA "p" "T" ≠ App.ai_read_image_messages envA "q") := by
  have hmem : App.msg1 envA "p" "T" ∈ (App.process_page envA fmt_bang "p" "o").2.2 := by decide
  exact ⟨hmem, C9_no_meta_no_ai_read envA envA envA fmt_bang "p" "o" "ot" "q" ["v1"]
    (some "q") (App.msg1 envA "p" "T") hmem⟩

/-- C10: both message builders attach the image as a
`data:image/jpeg;base64,` data URL of the base64-encoded raw file bytes,
whatever the file actually contains, while `main` saves every page image
as a `.png` file in `PNG` format. -/
theorem C10_jpeg_data_url (fs : String → List Nat) (pr c p : String) (n i : Nat)
    (hp : p ≠ "") (hin : i < n) :
    (App.prepare_messages fs pr c (some p)).getLast? =
      some (Message.mk "user" (Content.imageUrl
        ("data:image/jpeg;base64," ++ encode_image_to_base64 fs p)))
    ∧ (Translate.prepare_messages fs pr c p).getLast? =
      some (Message.mk "user" (Content.imageUrl
        ("data:image/jpeg;base64," ++ encode_image_to_base64 fs p)))
    ∧ (App.main_image_saves n)[i]? = some (App.image_path_for (i + 1), "PNG")
    ∧ App.image_path_for (i + 1) = (App.images_path ++ "/page_" ++ toString (i + 1)) ++ ".png" := by
  refine ⟨?_, ?_, ?_, rfl⟩
  · simp [App.prepare_messages, hp]
  · simp [Translate.prepare_messages, hp]
  · unfold App.main_image_saves
    rw [List.getElem?_map, List.getElem?_range hin, Option.map_some']

/-- Witness for C10 at a concrete path and a 2-page document. -/
theorem C10_jpeg_data_url_witness :
    ("p" : String) ≠ "" ∧ (0 : Nat) < 2
    ∧ ((App.prepare_messages (fun _ => []) "pr" "c" (some "p")).getLast? =
        some (Message.mk "user" (Content.imageUrl
          ("data:image/jpeg;base64," ++ encode_image_to_base64 (fun _ => []) "p")))
      ∧ (Translate.prepare_messages (fun _ => []) "pr" "c" "p").getLast? =
        some (Message.mk "user" (Content.imageUrl
          ("data:image/jpeg;base64," ++ encode_image_to_base64 (fun _ => []) "p")))
      ∧ (App.main_image_saves 2)[0]? = some (App.image_path_for 1, "PNG")
      ∧ App.image_path_for 1 = (App.images_path ++ "/page_" ++ toString 1) ++ ".png") :=
  ⟨by decide, by decide, C10_jpeg_data_url (fun _ => []) "pr" "c" "p" 2 0 (by decide) (by decide)⟩
